import Mathlib

/-!
Verification development for the c4cs-f17-rpn repository, an RPN
(Reverse Polish Notation) calculator written in Python.

The repository has two implementations:
* `rpn_kitchen_sink.py` — the full calculator: class `Calculator`
  (floating-point mode) with `lookup` (token resolution) and `calculate`
  (stack evaluation), subclass `IntegerCalculator` (integer coercion and
  floor division), and the helper `get_math_arg_count` classifying the
  arity of `math`-module functions by name.
* `rpn.py` — an earlier, simpler draft with a standalone `calculate`
  (integer literals, the four binary operators), exercised by `test_rpn.py`.

The embedding below mirrors those files.  Numeric values are modelled as
exact rationals (ℚ): every literal appearing in the settled claims is a
small decimal that Python's `int`/`float` represents exactly, and none of
the settled claims depends on floating-point rounding.  Python's `float`
division by zero raises `ZeroDivisionError` exactly when the divisor is
zero, which the rational embedding captures exactly.  Python exceptions
are modelled by the `PyErr` type and fallible code returns `Except`.
-/

/-- The Python exceptions that the two rpn modules can raise while
evaluating an expression, with their observable payloads. -/
inductive PyErr where
  /-- Python `RuntimeError(msg)` — raised explicitly by `Calculator.lookup`
  (unknown operand) and `Calculator.calculate` (malformed expression). -/
  | runtimeError (msg : String)
  /-- Python `IndexError(msg)` — raised by `list.pop()` on an empty stack. -/
  | indexError (msg : String)
  /-- Python `KeyError(key)` — raised by `operators[token]` in `rpn.py`. -/
  | keyError (key : String)
  /-- Python `TypeError(msg)` — raised by `rpn.py` when the final stack size is
  not 1, and by calling an operator with a wrong argument count. -/
  | typeError (msg : String)
  /-- Python `ZeroDivisionError` — raised by Python's `/` and `//` when the
  divisor is zero (in floating-point mode as well as integer mode). -/
  | zeroDivisionError
deriving DecidableEq

/-- The binary functions that can sit in an `OPERATORS` dict:
`operator.add/sub/mul/truediv` (base `Calculator` and `rpn.py`) and
`operator.floordiv` (the `IntegerCalculator` override for `/`). -/
inductive PyBinFn where
  | add
  | sub
  | mul
  | truediv
  | floordiv
deriving DecidableEq

/-- Semantics of the `operator` module functions used by the sources.
Python raises `ZeroDivisionError` when the divisor of `/` or `//` is
zero; otherwise `truediv` is exact division and `floordiv` rounds the
quotient toward negative infinity (Python's `//`). -/
def applyBin : PyBinFn → ℚ → ℚ → Except PyErr ℚ
  | .add, x, y => .ok (x + y)
  | .sub, x, y => .ok (x - y)
  | .mul, x, y => .ok (x * y)
  | .truediv, x, y =>
    if y = 0 then .error .zeroDivisionError else .ok (x / y)
  | .floordiv, x, y =>
    if y = 0 then .error .zeroDivisionError else .ok ((⌊x / y⌋ : ℤ) : ℚ)

/-! ### Python numeric-literal parsing (`int(token)` and `float(token)`)

Tokens come from `str.split()`, so they contain no whitespace.  The
grammars below follow CPython: an optional sign, ASCII digits with single
underscores allowed between digits, and for `float` an optional fraction
and exponent.  (`float` also accepts `inf`/`nan` spellings, which have no
rational value; no settled claim involves such a token.) -/

/-- Numeric value of an ASCII digit character. -/
def digitVal (c : Char) : ℕ := c.toNat - 48

/-- Continue parsing a digit run in which a single `_` may appear
between two digits (Python's numeric-literal underscore rule). -/
def pyDigitsGo (acc : ℕ) : List Char → Option ℕ
  | [] => some acc
  | '_' :: c :: cs =>
    if c.isDigit then pyDigitsGo (10 * acc + digitVal c) cs else none
  | ['_'] => none
  | c :: cs =>
    if c.isDigit then pyDigitsGo (10 * acc + digitVal c) cs else none

/-- Parse a nonempty underscore-grouped digit run. -/
def pyDigits : List Char → Option ℕ
  | [] => none
  | c :: cs => if c.isDigit then pyDigitsGo (digitVal c) cs else none

/-- Python's `int(token)`: optional sign followed by digits. -/
def pyInt (s : String) : Option ℤ :=
  match s.data with
  | '+' :: cs => (pyDigits cs).map (fun n => (n : ℤ))
  | '-' :: cs => (pyDigits cs).map (fun n => -(n : ℤ))
  | cs => (pyDigits cs).map (fun n => (n : ℤ))

/-- Like `pyDigitsGo` but also counts the digits (needed to scale a
fraction part). -/
def pyDigitsCountGo (acc : ℕ × ℕ) : List Char → Option (ℕ × ℕ)
  | [] => some acc
  | '_' :: c :: cs =>
    if c.isDigit then pyDigitsCountGo (10 * acc.1 + digitVal c, acc.2 + 1) cs else none
  | ['_'] => none
  | c :: cs =>
    if c.isDigit then pyDigitsCountGo (10 * acc.1 + digitVal c, acc.2 + 1) cs else none

/-- Parse a possibly-empty digit run, returning value and digit count. -/
def pyDigitsOpt : List Char → Option (ℕ × ℕ)
  | [] => some (0, 0)
  | c :: cs => if c.isDigit then pyDigitsCountGo (digitVal c, 1) cs else none

/-- Split a character list at the first character satisfying `p`,
returning the part before it and, when found, the part after it. -/
def splitAtFirst (p : Char → Bool) : List Char → List Char × Option (List Char)
  | [] => ([], none)
  | c :: cs =>
    if p c then ([], some cs)
    else
      let r := splitAtFirst p cs
      (c :: r.1, r.2)

/-- Ten to an integer power, as a rational. -/
def pow10 (e : ℤ) : ℚ :=
  if 0 ≤ e then ((10 : ℚ) ^ e.toNat) else ((10 : ℚ) ^ (-e).toNat)⁻¹

/-- Parse the mantissa of a float literal: digits with an optional `.`
and fraction, at least one digit overall.  Returns the digits read as an
integer together with the number of fraction digits. -/
def pyFloatMantissa (cs : List Char) : Option (ℕ × ℕ) :=
  match splitAtFirst (fun c => c = '.') cs with
  | (ip, none) => (pyDigits ip).map (fun n => (n, 0))
  | (ip, some fp) =>
    match pyDigitsOpt ip, pyDigitsOpt fp with
    | some iv, some fv =>
      if iv.2 = 0 ∧ fv.2 = 0 then none
      else some (iv.1 * 10 ^ fv.2 + fv.1, fv.2)
    | _, _ => none

/-- Parse the signed exponent of a float literal. -/
def pyFloatExp (cs : List Char) : Option ℤ :=
  match cs with
  | '+' :: rest => (pyDigits rest).map (fun n => (n : ℤ))
  | '-' :: rest => (pyDigits rest).map (fun n => -(n : ℤ))
  | rest => (pyDigits rest).map (fun n => (n : ℤ))

/-- The digits of a successfully parsed float literal: sign, mantissa
digits read as an integer, number of fraction digits, exponent. -/
structure FloatParse where
  neg : Bool
  mant : ℕ
  fracDigits : ℕ
  exp : ℤ
deriving DecidableEq

/-- Unsigned part of Python's `float(token)` grammar. -/
def pyFloatParseUnsigned (neg : Bool) (cs : List Char) : Option FloatParse :=
  match splitAtFirst (fun c => c = 'e' ∨ c = 'E') cs with
  | (mant, none) =>
    (pyFloatMantissa mant).map (fun p => ⟨neg, p.1, p.2, 0⟩)
  | (mant, some ecs) =>
    match pyFloatMantissa mant, pyFloatExp ecs with
    | some p, some e => some ⟨neg, p.1, p.2, e⟩
    | _, _ => none

/-- Python's `float(token)` grammar: optional sign, mantissa, exponent. -/
def pyFloatParse (s : String) : Option FloatParse :=
  match s.data with
  | '+' :: cs => pyFloatParseUnsigned false cs
  | '-' :: cs => pyFloatParseUnsigned true cs
  | cs => pyFloatParseUnsigned false cs

/-- The rational value of a parsed float literal. -/
def FloatParse.val (r : FloatParse) : ℚ :=
  (cond r.neg (-(r.mant : ℚ)) (r.mant : ℚ)) * pow10 (r.exp - (r.fracDigits : ℤ))

/-- Python's `float(token)`: the value of the parsed literal. -/
def pyFloat (s : String) : Option ℚ := (pyFloatParse s).map FloatParse.val

/-! ### Tokenization: Python's `str.split()` -/

/-- Accumulate the whitespace-separated tokens of a character list;
`acc` holds the characters of the current token in reverse. -/
def pyTokensAux : List Char → List Char → List String
  | [], acc => if acc = [] then [] else [String.mk acc.reverse]
  | c :: cs, acc =>
    if c.isWhitespace then
      if acc = [] then pyTokensAux cs [] else String.mk acc.reverse :: pyTokensAux cs []
    else pyTokensAux cs (c :: acc)

/-- Python's `expression.split()`: split on runs of whitespace and drop
empty pieces, so the empty string yields no tokens. -/
def pySplit (s : String) : List String := pyTokensAux s.data []

deriving instance DecidableEq for Except

/-! ### The math-function registry (`getattr(math, token)`)

`Calculator.lookup` falls back to `getattr(math, operand)`.  An attribute
of the `math` module is either a callable function object, carrying its
`__name__` (which `get_math_arg_count` reads), or a non-callable constant
(a float such as `math.pi`), whose `str`-representation appears in the
`"Invalid operand: {}"` message because `lookup` rebinds `operand` to the
attribute before `get_math_arg_count` fails on it.  The numeric behaviour
of the C math library is floating point and is not modelled: it is an
arbitrary parameter (`sem` below) of the calculator, and no settled claim
depends on the values math functions return. -/

/-- One attribute of the `math` module as `Calculator.lookup` observes it. -/
inductive MathAttr where
  /-- A callable with `__name__ = pyname`. -/
  | func (pyname : String)
  /-- A non-callable constant whose `str()` is `str`. -/
  | const (str : String)
deriving DecidableEq

/-- The function `get_math_arg_count` (cPython branch, lines 42-47): a function whose
`__name__` is one of `cos, sin, tan, exp, sqrt` gets arity 1, every other
function gets arity 2. -/
def getMathArgCount (pyname : String) : ℕ :=
  if pyname = "cos" ∨ pyname = "sin" ∨ pyname = "tan" ∨ pyname = "exp" ∨ pyname = "sqrt"
  then 1 else 2

/-- The public attributes of cPython's `math` module (version 3.6), with
each function's `__name__` and each constant's `str()` representation. -/
def mathModuleAttrs : List (String × MathAttr) := [
  ("acos", .func "acos"), ("acosh", .func "acosh"), ("asin", .func "asin"),
  ("asinh", .func "asinh"), ("atan", .func "atan"), ("atan2", .func "atan2"),
  ("atanh", .func "atanh"), ("ceil", .func "ceil"), ("copysign", .func "copysign"),
  ("cos", .func "cos"), ("cosh", .func "cosh"), ("degrees", .func "degrees"),
  ("e", .const "2.718281828459045"), ("erf", .func "erf"), ("erfc", .func "erfc"),
  ("exp", .func "exp"), ("expm1", .func "expm1"), ("fabs", .func "fabs"),
  ("factorial", .func "factorial"), ("floor", .func "floor"), ("fmod", .func "fmod"),
  ("frexp", .func "frexp"), ("fsum", .func "fsum"), ("gamma", .func "gamma"),
  ("gcd", .func "gcd"), ("hypot", .func "hypot"), ("inf", .const "inf"),
  ("isclose", .func "isclose"), ("isfinite", .func "isfinite"),
  ("isinf", .func "isinf"), ("isnan", .func "isnan"), ("ldexp", .func "ldexp"),
  ("lgamma", .func "lgamma"), ("log", .func "log"), ("log10", .func "log10"),
  ("log1p", .func "log1p"), ("log2", .func "log2"), ("modf", .func "modf"),
  ("nan", .const "nan"), ("pi", .const "3.141592653589793"), ("pow", .func "pow"),
  ("radians", .func "radians"), ("sin", .func "sin"), ("sinh", .func "sinh"),
  ("sqrt", .func "sqrt"), ("tan", .func "tan"), ("tanh", .func "tanh"),
  ("tau", .const "6.283185307179586"), ("trunc", .func "trunc")]

/-! ### The kitchen-sink calculator (`rpn_kitchen_sink.py`) -/

/-- What `Calculator.lookup` returns for a resolvable token: the callable
it builds, in first-order form.  The `.` closure (`lambda: self.last`)
reads `self.last` when invoked, so `memRef` is interpreted by the
evaluator against the calculator's memory cell. -/
inductive PyAction where
  /-- Closure `lambda: operand` for a coerced numeric literal. -/
  | pushVal (v : ℚ)
  /-- Closure `lambda: self.last` for the `.` token. -/
  | memRef
  /-- Closure `lambda *args: operand(*args)` for an `OPERATORS` entry. -/
  | binOp (f : PyBinFn)
  /-- Closure `lambda *args: operand(*args)` for a callable `math` attribute. -/
  | mathFn (pyname : String)
deriving DecidableEq

/-- Association-list lookup, modelling Python dict indexing and
`getattr` on the registry. -/
def lookupAssoc {α : Type} (l : List (String × α)) (k : String) : Option α :=
  (l.find? (fun p => p.1 == k)).map (fun p => p.2)

/-- A `Calculator` object: its literal coercion (`self.coerce_number`),
its `OPERATORS` dict, the `math` attributes `getattr` can find, and the
(unmodelled, arbitrary) numeric semantics of the math functions. -/
structure Calculator where
  coerce : String → Option ℚ
  ops : List (String × PyBinFn)
  reg : List (String × MathAttr)
  sem : String → List ℚ → ℚ

/-- The method `Calculator.lookup` (lines 131-161): classify `operand` as memory
reference, numeric literal, binary operator or math attribute, in that
order, returning the action and its argument count; otherwise raise
`RuntimeError("Invalid operand: {}")`.  A failed coercion
(`ValueError`) and a missed dict or attribute lookup (`KeyError`,
`AttributeError`) fall through to the next classification.  For a
non-callable math attribute, `get_math_arg_count` raises
`AttributeError` reading `__name__`, caught by the same fall-through,
and the final message shows the attribute (the code rebound `operand`
to it), not the original token. -/
def Calculator.lookup (c : Calculator) (operand : String) :
    Except PyErr (PyAction × ℕ) :=
  if operand = "." then .ok (.memRef, 0)
  else
    match c.coerce operand with
    | some v => .ok (.pushVal v, 0)
    | none =>
      match lookupAssoc c.ops operand with
      | some f => .ok (.binOp f, 2)
      | none =>
        match lookupAssoc c.reg operand with
        | some (.func p) => .ok (.mathFn p, getMathArgCount p)
        | some (.const r) => .error (.runtimeError ("Invalid operand: " ++ r))
        | none => .error (.runtimeError ("Invalid operand: " ++ operand))

/-- Python `stack.pop()` performed `n` times (the generator
`(stack.pop() for x in range(count))` in line 167): returns the popped
values in pop order together with the remaining stack, or raises
`IndexError` when the stack runs out.  The stack's head is its top. -/
def popN : ℕ → List ℚ → Except PyErr (List ℚ × List ℚ)
  | 0, s => .ok ([], s)
  | _ + 1, [] => .error (.indexError "pop from empty list")
  | n + 1, x :: s =>
    match popN n s with
    | .error e => .error e
    | .ok pr => .ok (x :: pr.1, pr.2)

/-- Invoke a resolved action on the popped arguments, `fn(*args)` in
line 167.  The popped values are passed in pop order, so for a binary
operator the first-popped (top-of-stack) value is the LEFT argument.
The wrong-argument-count branches of `binOp` are unreachable because
`lookup` pairs it with arity 2. -/
def applyAction (c : Calculator) (last : ℚ) : PyAction → List ℚ → Except PyErr ℚ
  | .pushVal v, _ => .ok v
  | .memRef, _ => .ok last
  | .binOp f, [x, y] => applyBin f x y
  | .binOp _, _ => .error (.typeError "wrong number of arguments")
  | .mathFn p, args => .ok (c.sem p args)

/-- One iteration of the `for fn,count in map(self.lookup, ...)` loop in
`Calculator.calculate`: resolve the token, pop `count` values, invoke
the action, push the result.  (`map` is lazy in Python 3, so each token
is resolved only when its iteration starts.) -/
def Calculator.step (c : Calculator) (last : ℚ) (tok : String) (stack : List ℚ) :
    Except PyErr (List ℚ) :=
  match c.lookup tok with
  | .error e => .error e
  | .ok an =>
    match popN an.2 stack with
    | .error e => .error e
    | .ok pr =>
      match applyAction c last an.1 pr.1 with
      | .error e => .error e
      | .ok v => .ok (v :: pr.2)

/-- The token loop of `Calculator.calculate`: any exception aborts the
remaining tokens. -/
def Calculator.evalTokens (c : Calculator) (last : ℚ) :
    List String → List ℚ → Except PyErr (List ℚ)
  | [], stack => .ok stack
  | tok :: rest, stack =>
    match c.step last tok stack with
    | .error e => .error e
    | .ok s2 => c.evalTokens last rest s2

/-- The mutable state of a `Calculator` object: `self.last`, initialised
to 0 and assigned only by a successful `calculate`. -/
structure CalcState where
  last : ℚ
deriving DecidableEq

/-- The method `Calculator.calculate` (lines 164-174): split the expression, run
the token loop on a fresh stack, and if exactly one value remains make
it the new `self.last` and the result; otherwise raise
`RuntimeError("Malformed expression")`.  An exception leaves `self.last`
untouched, because its only assignment comes after every raise point. -/
def Calculator.calculate (c : Calculator) (st : CalcState) (expr : String) :
    Except PyErr ℚ × CalcState :=
  match c.evalTokens st.last (pySplit expr) [] with
  | .error e => (.error e, st)
  | .ok [v] => (.ok v, ⟨v⟩)
  | .ok _ => (.error (.runtimeError "Malformed expression"), st)

/-- Contents of the `OPERATORS` dict of the base `Calculator` (lines 123-128):
`/` is `operator.truediv`. -/
def baseOperators : List (String × PyBinFn) :=
  [("+", .add), ("-", .sub), ("*", .mul), ("/", .truediv)]

/-- Contents of the `OPERATORS` dict after `IntegerCalculator.__init__` replaces the
`/` entry with `operator.floordiv` (line 181). -/
def integerOperators : List (String × PyBinFn) :=
  [("+", .add), ("-", .sub), ("*", .mul), ("/", .floordiv)]

/-- A placeholder interpretation of the math functions.  The settled
claims never constrain the numeric values math functions return (they
are floating point and outside this embedding), and every theorem that
touches them holds for an arbitrary `sem`. -/
def unspecifiedMathSem : String → List ℚ → ℚ := fun _ _ => 0

/-- A base `Calculator()` with a given registry and math semantics:
`coerce_number` is `float`. -/
def floatCalculatorWith (reg : List (String × MathAttr))
    (sem : String → List ℚ → ℚ) : Calculator :=
  ⟨pyFloat, baseOperators, reg, sem⟩

/-- An `IntegerCalculator()` with a given registry and math semantics:
`coerce_number` is `int` and `/` is floor division. -/
def integerCalculatorWith (reg : List (String × MathAttr))
    (sem : String → List ℚ → ℚ) : Calculator :=
  ⟨fun s => (pyInt s).map (fun n => (n : ℚ)), integerOperators, reg, sem⟩

/-- A default `Calculator()` instance used in floating-point mode. -/
def floatCalculator : Calculator :=
  floatCalculatorWith mathModuleAttrs unspecifiedMathSem

/-- An `IntegerCalculator()` instance used with `--disable-floats`. -/
def integerCalculator : Calculator :=
  integerCalculatorWith mathModuleAttrs unspecifiedMathSem

/-! ### The early draft (`rpn.py`) -/

/-- Contents of the `operators` dict of `rpn.py` (lines 6-11). -/
def rpnOperators : List (String × PyBinFn) :=
  [("+", .add), ("-", .sub), ("*", .mul), ("/", .truediv)]

/-- The body of the token loop of `rpn.calculate` (lines 16-24): an
integer token is pushed; otherwise the token indexes `operators`
(`KeyError` if absent), `arg2` is popped first, then `arg1`, and
`function(arg1, arg2)` is pushed — so here the first-popped value is the
RIGHT argument. -/
def rpnStep (tok : String) (stack : List ℚ) : Except PyErr (List ℚ) :=
  match pyInt tok with
  | some n => .ok ((n : ℚ) :: stack)
  | none =>
    match lookupAssoc rpnOperators tok with
    | none => .error (.keyError tok)
    | some f =>
      match stack with
      | arg2 :: arg1 :: s =>
        match applyBin f arg1 arg2 with
        | .error e => .error e
        | .ok r => .ok (r :: s)
      | _ => .error (.indexError "pop from empty list")

/-- The token loop of `rpn.calculate` (lines 15-25): any exception
aborts the remaining tokens. -/
def rpnEval : List String → List ℚ → Except PyErr (List ℚ)
  | [], stack => .ok stack
  | tok :: rest, stack =>
    match rpnStep tok stack with
    | .error e => .error e
    | .ok s2 => rpnEval rest s2

/-- The function `rpn.calculate` (lines 13-28): run the loop on a fresh stack and
require exactly one remaining value, else raise
`TypeError("Too many parameters")`. -/
def rpnCalculate (expr : String) : Except PyErr ℚ :=
  match rpnEval (pySplit expr) [] with
  | .error e => .error e
  | .ok [v] => .ok v
  | .ok _ => .error (.typeError "Too many parameters")

/-! ### Helper lemmas -/

theorem lookup_mem (c : Calculator) :
    c.lookup "." = .ok (.memRef, 0) := rfl

theorem lookup_lit (c : Calculator) (tok : String) (v : ℚ)
    (h1 : tok ≠ ".") (h2 : c.coerce tok = some v) :
    c.lookup tok = .ok (.pushVal v, 0) := by
  unfold Calculator.lookup
  rw [if_neg h1, h2]

theorem lookup_op (c : Calculator) (tok : String) (f : PyBinFn)
    (h1 : tok ≠ ".") (h2 : c.coerce tok = none)
    (h3 : lookupAssoc c.ops tok = some f) :
    c.lookup tok = .ok (.binOp f, 2) := by
  unfold Calculator.lookup
  rw [if_neg h1, h2, h3]

theorem step_mem (c : Calculator) (last : ℚ) (stack : List ℚ) :
    c.step last "." stack = .ok (last :: stack) := rfl

theorem step_lit (c : Calculator) (last : ℚ) (tok : String) (v : ℚ) (stack : List ℚ)
    (h1 : tok ≠ ".") (h2 : c.coerce tok = some v) :
    c.step last tok stack = .ok (v :: stack) := by
  unfold Calculator.step
  rw [lookup_lit c tok v h1 h2]
  rfl

theorem step_bin_ok (c : Calculator) (last : ℚ) (tok : String) (f : PyBinFn)
    (x y r : ℚ) (s : List ℚ)
    (h1 : tok ≠ ".") (h2 : c.coerce tok = none)
    (h3 : lookupAssoc c.ops tok = some f) (h4 : applyBin f x y = .ok r) :
    c.step last tok (x :: y :: s) = .ok (r :: s) := by
  unfold Calculator.step
  rw [lookup_op c tok f h1 h2 h3]
  show (match applyBin f x y with
    | .error e => .error e
    | .ok v => .ok (v :: s) : Except PyErr (List ℚ)) = _
  rw [h4]

theorem step_bin_err (c : Calculator) (last : ℚ) (tok : String) (f : PyBinFn)
    (x y : ℚ) (s : List ℚ) (e : PyErr)
    (h1 : tok ≠ ".") (h2 : c.coerce tok = none)
    (h3 : lookupAssoc c.ops tok = some f) (h4 : applyBin f x y = .error e) :
    c.step last tok (x :: y :: s) = .error e := by
  unfold Calculator.step
  rw [lookup_op c tok f h1 h2 h3]
  show (match applyBin f x y with
    | .error e => .error e
    | .ok v => .ok (v :: s) : Except PyErr (List ℚ)) = _
  rw [h4]

theorem popN_underflow (n : ℕ) (s : List ℚ) (h : s.length < n) :
    popN n s = .error (.indexError "pop from empty list") := by
  induction n generalizing s with
  | zero => omega
  | succ n ih =>
    cases s with
    | nil => rfl
    | cons x s =>
      have : s.length < n := by simpa using h
      unfold popN
      rw [ih s this]

theorem step_err_of_underflow (c : Calculator) (last : ℚ) (tok : String)
    (a : PyAction) (n : ℕ) (stack : List ℚ)
    (hl : c.lookup tok = .ok (a, n)) (h : stack.length < n) :
    c.step last tok stack = .error (.indexError "pop from empty list") := by
  unfold Calculator.step
  rw [hl]
  show (match popN n stack with
    | .error e => .error e
    | .ok pr =>
      match applyAction c last a pr.1 with
      | .error e => .error e
      | .ok v => .ok (v :: pr.2) : Except PyErr (List ℚ)) =
    .error (.indexError "pop from empty list")
  rw [popN_underflow n stack h]

theorem step_op_underflow (c : Calculator) (last : ℚ) (tok : String) (f : PyBinFn)
    (stack : List ℚ)
    (h1 : tok ≠ ".") (h2 : c.coerce tok = none)
    (h3 : lookupAssoc c.ops tok = some f) (h4 : stack.length < 2) :
    c.step last tok stack = .error (.indexError "pop from empty list") :=
  step_err_of_underflow c last tok (.binOp f) 2 stack (lookup_op c tok f h1 h2 h3) h4

theorem evalTokens_nil (c : Calculator) (last : ℚ) (s : List ℚ) :
    c.evalTokens last [] s = .ok s := rfl

theorem evalTokens_cons_ok (c : Calculator) (last : ℚ) (t : String) (ts : List String)
    (s s2 : List ℚ) (h : c.step last t s = .ok s2) :
    c.evalTokens last (t :: ts) s = c.evalTokens last ts s2 := by
  show (match c.step last t s with
    | .error e => .error e
    | .ok s3 => c.evalTokens last ts s3) = c.evalTokens last ts s2
  rw [h]

theorem evalTokens_cons_err (c : Calculator) (last : ℚ) (t : String) (ts : List String)
    (s : List ℚ) (e : PyErr) (h : c.step last t s = .error e) :
    c.evalTokens last (t :: ts) s = .error e := by
  unfold Calculator.evalTokens
  rw [h]

theorem calculate_err (c : Calculator) (st : CalcState) (expr : String) (e : PyErr)
    (h : c.evalTokens st.last (pySplit expr) [] = .error e) :
    c.calculate st expr = (.error e, st) := by
  unfold Calculator.calculate
  rw [h]

theorem calculate_ok (c : Calculator) (st : CalcState) (expr : String) (v : ℚ)
    (h : c.evalTokens st.last (pySplit expr) [] = .ok [v]) :
    c.calculate st expr = (.ok v, ⟨v⟩) := by
  unfold Calculator.calculate
  rw [h]

theorem calculate_malformed2 (c : Calculator) (st : CalcState) (expr : String)
    (a b : ℚ) (l : List ℚ)
    (h : c.evalTokens st.last (pySplit expr) [] = .ok (a :: b :: l)) :
    c.calculate st expr = (.error (.runtimeError "Malformed expression"), st) := by
  unfold Calculator.calculate
  rw [h]

theorem calculate_malformed0 (c : Calculator) (st : CalcState) (expr : String)
    (h : c.evalTokens st.last (pySplit expr) [] = .ok []) :
    c.calculate st expr = (.error (.runtimeError "Malformed expression"), st) := by
  unfold Calculator.calculate
  rw [h]

/-! coercion facts -/

theorem coerce_float (s : String) : floatCalculator.coerce s = pyFloat s := rfl

theorem coerce_int_some (s : String) (n : ℤ) (h : pyInt s = some n) :
    integerCalculator.coerce s = some ((n : ℤ) : ℚ) := by
  simp only [integerCalculator, integerCalculatorWith]
  rw [h]
  rfl

theorem coerce_int_none (s : String) (h : pyInt s = none) :
    integerCalculator.coerce s = none := by
  simp only [integerCalculator, integerCalculatorWith]
  rw [h]
  rfl

theorem pyFloat_some (s : String) (r : FloatParse) (h : pyFloatParse s = some r) :
    pyFloat s = some r.val := by
  unfold pyFloat
  rw [h]
  rfl

theorem pyFloat_none (s : String) (h : pyFloatParse s = none) :
    pyFloat s = none := by
  unfold pyFloat
  rw [h]
  rfl

theorem pyFloat_dig (s : String) (m : ℕ) (h : pyFloatParse s = some ⟨false, m, 0, 0⟩) :
    pyFloat s = some (m : ℚ) := by
  rw [pyFloat_some s _ h]
  norm_num [FloatParse.val, pow10]

/-! ### Literal-value facts -/

theorem coerce_float_none (s : String) (h : pyFloatParse s = none) :
    floatCalculator.coerce s = none := by
  rw [coerce_float]
  exact pyFloat_none s h

theorem coerce_float_eval (s : String) (r : FloatParse) (q : ℚ)
    (h : pyFloatParse s = some r) (hq : r.val = q) :
    floatCalculator.coerce s = some q := by
  rw [coerce_float, pyFloat_some s r h, hq]

theorem coerce_int_eval (s : String) (n : ℤ) (q : ℚ)
    (h : pyInt s = some n) (hq : ((n : ℤ) : ℚ) = q) :
    integerCalculator.coerce s = some q := by
  rw [coerce_int_some s n h, hq]

/-! ### rpn.py helper lemmas -/

theorem rpnStep_lit (t : String) (n : ℤ) (s : List ℚ) (h : pyInt t = some n) :
    rpnStep t s = .ok ((n : ℚ) :: s) := by
  unfold rpnStep
  rw [h]

theorem rpnStep_op_ok (t : String) (f : PyBinFn) (arg1 arg2 r : ℚ) (s : List ℚ)
    (h1 : pyInt t = none) (h2 : lookupAssoc rpnOperators t = some f)
    (h3 : applyBin f arg1 arg2 = .ok r) :
    rpnStep t (arg2 :: arg1 :: s) = .ok (r :: s) := by
  simp only [rpnStep, h1, h2]
  rw [h3]

theorem rpnEval_nil (s : List ℚ) : rpnEval [] s = .ok s := rfl

theorem rpnEval_cons_ok (t : String) (ts : List String) (s s2 : List ℚ)
    (h : rpnStep t s = .ok s2) :
    rpnEval (t :: ts) s = rpnEval ts s2 := by
  show (match rpnStep t s with
    | .error e => .error e
    | .ok s3 => rpnEval ts s3 : Except PyErr (List ℚ)) = rpnEval ts s2
  rw [h]

theorem rpnCalculate_ok (expr : String) (v : ℚ)
    (h : rpnEval (pySplit expr) [] = .ok [v]) :
    rpnCalculate expr = .ok v := by
  unfold rpnCalculate
  rw [h]

/-! ### Stack-shape lemmas for the kitchen-sink evaluator -/

theorem popN_ok (n : ℕ) (stack args rest : List ℚ)
    (h : popN n stack = .ok (args, rest)) :
    n ≤ stack.length ∧ args.length = n ∧ rest.length = stack.length - n := by
  induction n generalizing stack args rest with
  | zero =>
    unfold popN at h
    simp only [Except.ok.injEq, Prod.mk.injEq] at h
    obtain ⟨h1, h2⟩ := h
    subst h1
    subst h2
    simp
  | succ n ih =>
    cases stack with
    | nil => simp [popN] at h
    | cons x s =>
      unfold popN at h
      cases hp : popN n s with
      | error e => rw [hp] at h; simp at h
      | ok pr =>
        rw [hp] at h
        simp only [Except.ok.injEq, Prod.mk.injEq] at h
        obtain ⟨h1, h2⟩ := h
        obtain ⟨hle, hargs, hrest⟩ := ih s pr.1 pr.2 (by rw [hp])
        subst h1
        subst h2
        refine ⟨Nat.succ_le_succ hle, ?_, ?_⟩
        · simp [hargs]
        · simp only [List.length_cons]
          omega

theorem step_ok_shape (c : Calculator) (last : ℚ) (tok : String) (stack s2 : List ℚ)
    (h : c.step last tok stack = .ok s2) :
    ∃ a n, c.lookup tok = .ok (a, n) ∧ n ≤ stack.length ∧
      s2.length = stack.length - n + 1 := by
  unfold Calculator.step at h
  split at h
  · exact absurd h (by simp)
  rename_i an hl
  split at h
  · exact absurd h (by simp)
  rename_i pr hp
  split at h
  · exact absurd h (by simp)
  rename_i v ha
  simp only [Except.ok.injEq] at h
  obtain ⟨hle, hargs, hrest⟩ := popN_ok an.2 stack pr.1 pr.2 (by rw [hp])
  refine ⟨an.1, an.2, by rw [hl], hle, ?_⟩
  rw [← h]
  simp only [List.length_cons, hrest]

/-! ### The token loop over an appended list -/

theorem evalTokens_append (c : Calculator) (last : ℚ) (l1 l2 : List String)
    (s : List ℚ) :
    c.evalTokens last (l1 ++ l2) s =
      match c.evalTokens last l1 s with
      | .error e => .error e
      | .ok s2 => c.evalTokens last l2 s2 := by
  induction l1 generalizing s with
  | nil => rfl
  | cons t ts ih =>
    show (match c.step last t s with
      | .error e => .error e
      | .ok s2 => c.evalTokens last (ts ++ l2) s2 : Except PyErr (List ℚ)) = _
    cases hs : c.step last t s with
    | error e =>
      rw [evalTokens_cons_err c last t ts s e hs]
    | ok s2 =>
      show c.evalTokens last (ts ++ l2) s2 = _
      rw [evalTokens_cons_ok c last t ts s s2 hs]
      exact ih s2

/-! ### Shared concrete runs -/

theorem calcOnePlus (st : CalcState) :
    floatCalculator.calculate st "1 +" =
      (.error (.indexError "pop from empty list"), st) := by
  apply calculate_err
  rw [show pySplit "1 +" = ["1", "+"] from by decide]
  rw [evalTokens_cons_ok _ _ _ _ _ _ (step_lit _ _ _ 1 _ (by decide)
    (coerce_float_eval "1" ⟨false, 1, 0, 0⟩ 1 (by decide) (by norm_num [FloatParse.val, pow10])))]
  exact evalTokens_cons_err _ _ _ _ _ _ (step_op_underflow _ _ _ .add _ (by decide)
    (coerce_float_none "+" (by decide)) (by decide) (by decide))

/-! ### Claim theorems -/

/-- C1: the claim states that evaluating `"a b OP"` returns `a OP b`,
the first-popped operand being the right-hand side.  In
`Calculator.calculate` (line 167) the generator passes the FIRST-popped
(top-of-stack) value as the LEFT argument, so `"5 3 -"` evaluates to
`3 - 5 = -2` in both modes and `"4 2 /"` to `2 / 4 = 0.5`, while the
draft `rpn.calculate` (and the repository's own test `test_rpn.py`,
which expects `2` for `"5 3 -"`) compute `a OP b` as the claim states.
This theorem records the divergence at the failing inputs. -/
theorem c1_first_popped_is_left_operand :
    integerCalculator.calculate ⟨0⟩ "5 3 -" = (.ok (-2), ⟨-2⟩) ∧
    floatCalculator.calculate ⟨0⟩ "5 3 -" = (.ok (-2), ⟨-2⟩) ∧
    floatCalculator.calculate ⟨0⟩ "4 2 /" = (.ok (1 / 2), ⟨1 / 2⟩) ∧
    rpnCalculate "5 3 -" = .ok 2 ∧
    rpnCalculate "1 1 +" = .ok 2 := by
  refine ⟨?_, ?_, ?_, ?_, ?_⟩
  · apply calculate_ok
    rw [show pySplit "5 3 -" = ["5", "3", "-"] from by decide]
    rw [evalTokens_cons_ok _ _ _ _ _ _ (step_lit _ _ _ 5 _ (by decide)
      (coerce_int_eval "5" 5 5 (by decide) (by norm_num)))]
    rw [evalTokens_cons_ok _ _ _ _ _ _ (step_lit _ _ _ 3 _ (by decide)
      (coerce_int_eval "3" 3 3 (by decide) (by norm_num)))]
    rw [evalTokens_cons_ok _ _ _ _ _ _ (step_bin_ok _ _ _ .sub 3 5 (-2) _ (by decide)
      (coerce_int_none "-" (by decide)) (by decide) (by norm_num [applyBin]))]
    rfl
  · apply calculate_ok
    rw [show pySplit "5 3 -" = ["5", "3", "-"] from by decide]
    rw [evalTokens_cons_ok _ _ _ _ _ _ (step_lit _ _ _ 5 _ (by decide)
      (coerce_float_eval "5" ⟨false, 5, 0, 0⟩ 5 (by decide) (by norm_num [FloatParse.val, pow10])))]
    rw [evalTokens_cons_ok _ _ _ _ _ _ (step_lit _ _ _ 3 _ (by decide)
      (coerce_float_eval "3" ⟨false, 3, 0, 0⟩ 3 (by decide) (by norm_num [FloatParse.val, pow10])))]
    rw [evalTokens_cons_ok _ _ _ _ _ _ (step_bin_ok _ _ _ .sub 3 5 (-2) _ (by decide)
      (coerce_float_none "-" (by decide)) (by decide) (by norm_num [applyBin]))]
    rfl
  · apply calculate_ok
    rw [show pySplit "4 2 /" = ["4", "2", "/"] from by decide]
    rw [evalTokens_cons_ok _ _ _ _ _ _ (step_lit _ _ _ 4 _ (by decide)
      (coerce_float_eval "4" ⟨false, 4, 0, 0⟩ 4 (by decide) (by norm_num [FloatParse.val, pow10])))]
    rw [evalTokens_cons_ok _ _ _ _ _ _ (step_lit _ _ _ 2 _ (by decide)
      (coerce_float_eval "2" ⟨false, 2, 0, 0⟩ 2 (by decide) (by norm_num [FloatParse.val, pow10])))]
    rw [evalTokens_cons_ok _ _ _ _ _ _ (step_bin_ok _ _ _ .truediv 2 4 (1 / 2) _ (by decide)
      (coerce_float_none "/" (by decide)) (by decide) (by norm_num [applyBin]))]
    rfl
  · apply rpnCalculate_ok
    rw [show pySplit "5 3 -" = ["5", "3", "-"] from by decide]
    rw [rpnEval_cons_ok _ _ _ _ (rpnStep_lit "5" 5 _ (by decide))]
    rw [rpnEval_cons_ok _ _ _ _ (rpnStep_lit "3" 3 _ (by decide))]
    rw [rpnEval_cons_ok _ _ _ _ (rpnStep_op_ok "-" .sub ((5 : ℤ) : ℚ) ((3 : ℤ) : ℚ) 2 []
      (by decide) (by decide) (by norm_num [applyBin]))]
    rfl
  · apply rpnCalculate_ok
    rw [show pySplit "1 1 +" = ["1", "1", "+"] from by decide]
    rw [rpnEval_cons_ok _ _ _ _ (rpnStep_lit "1" 1 _ (by decide))]
    rw [rpnEval_cons_ok _ _ _ _ (rpnStep_lit "1" 1 _ (by decide))]
    rw [rpnEval_cons_ok _ _ _ _ (rpnStep_op_ok "+" .add ((1 : ℤ) : ℚ) ((1 : ℤ) : ℚ) 2 []
      (by decide) (by decide) (by norm_num [applyBin]))]
    rfl

/-- C2 counterexample: the claim says stack underflow fails "with the
typed error StackUnderflow naming that token".  The code instead lets
`stack.pop()` raise a bare `IndexError("pop from empty list")`: the same
constant error value for the token `+` and for the token `*`, so the
error cannot be naming the offending token (and it is not the
`RuntimeError` class that the calculator's own error path uses). -/
theorem c2_counterexample :
    floatCalculator.calculate ⟨0⟩ "1 +" =
      (.error (.indexError "pop from empty list"), ⟨0⟩) ∧
    floatCalculator.calculate ⟨0⟩ "2 *" =
      (.error (.indexError "pop from empty list"), ⟨0⟩) := by
  refine ⟨calcOnePlus ⟨0⟩, ?_⟩
  apply calculate_err
  rw [show pySplit "2 *" = ["2", "*"] from by decide]
  rw [evalTokens_cons_ok _ _ _ _ _ _ (step_lit _ _ _ 2 _ (by decide)
    (coerce_float_eval "2" ⟨false, 2, 0, 0⟩ 2 (by decide) (by norm_num [FloatParse.val, pow10])))]
  exact evalTokens_cons_err _ _ _ _ _ _ (step_op_underflow _ _ _ .mul _ (by decide)
    (coerce_float_none "*" (by decide)) (by decide) (by decide))

/-- C2 (amended): when a token resolves to an action of arity `n` and
fewer than `n` values are on the stack, evaluation aborts immediately
(the remaining tokens are never processed) with
`IndexError("pop from empty list")` — an error that does not name the
token — no numeric result is produced, and `last_result` is unchanged;
in particular `evaluate("1 +")` fails this way. -/
theorem c2_amended :
    (∀ (c : Calculator) (last : ℚ) (tok : String) (rest : List String)
      (stack : List ℚ) (a : PyAction) (n : ℕ),
      c.lookup tok = .ok (a, n) → stack.length < n →
      c.evalTokens last (tok :: rest) stack =
        .error (.indexError "pop from empty list")) ∧
    (∀ st : CalcState, floatCalculator.calculate st "1 +" =
      (.error (.indexError "pop from empty list"), st)) := by
  constructor
  · intro c last tok rest stack a n hl hn
    exact evalTokens_cons_err c last tok rest stack _
      (step_err_of_underflow c last tok a n stack hl hn)
  · exact calcOnePlus

/-- C2 witness: the amended underflow statement applied to the arity-2
token `+` on a one-element stack, with two unprocessed tokens behind it. -/
theorem c2_witness :
    floatCalculator.evalTokens 0 ["+", "5", "7"] [1] =
      .error (.indexError "pop from empty list") :=
  c2_amended.1 floatCalculator 0 "+" ["5", "7"] [1] (.binOp .add) 2
    (by decide) (by decide)

/-- C6 counterexample: the claim says the empty expression fails with a
distinct `EmptyExpression` error and explicitly not with
`MalformedExpression`; the code has no empty-expression check and falls
through to `RuntimeError("Malformed expression")` (stack size 0 ≠ 1). -/
theorem c6_counterexample :
    floatCalculator.calculate ⟨0⟩ "" =
      (.error (.runtimeError "Malformed expression"), ⟨0⟩) := by
  apply calculate_malformed0
  rw [show pySplit "" = ([] : List String) from rfl]
  rfl

/-- C6 (amended): an expression that splits into zero tokens fails with
the same `RuntimeError("Malformed expression")` as any other
wrong-stack-size expression — no value is silently produced and the
state is unchanged — and there is no distinct empty-expression error. -/
theorem c6_amended (c : Calculator) (st : CalcState) (expr : String)
    (h : pySplit expr = []) :
    c.calculate st expr = (.error (.runtimeError "Malformed expression"), st) := by
  apply calculate_malformed0
  rw [h]
  rfl

/-- C6 witness: a whitespace-only expression splits into zero tokens and
fails with the malformed-expression error. -/
theorem c6_witness :
    pySplit " " = [] ∧
    floatCalculator.calculate ⟨3⟩ " " =
      (.error (.runtimeError "Malformed expression"), ⟨3⟩) :=
  ⟨by decide, c6_amended floatCalculator ⟨3⟩ " " (by decide)⟩

/-- Evaluating `"5 0 /"` on the integer calculator: the swapped operand order makes
it compute `0 // 5 = 0`, a successful evaluation. -/
theorem calcFiveZeroDivInt (st : CalcState) :
    integerCalculator.calculate st "5 0 /" = (.ok 0, ⟨0⟩) := by
  apply calculate_ok
  rw [show pySplit "5 0 /" = ["5", "0", "/"] from by decide]
  rw [evalTokens_cons_ok _ _ _ _ _ _ (step_lit _ _ _ 5 _ (by decide)
    (coerce_int_eval "5" 5 5 (by decide) (by norm_num)))]
  rw [evalTokens_cons_ok _ _ _ _ _ _ (step_lit _ _ _ 0 _ (by decide)
    (coerce_int_eval "0" 0 0 (by decide) (by norm_num)))]
  rw [evalTokens_cons_ok _ _ _ _ _ _ (step_bin_ok _ _ _ .floordiv 0 5 0 _ (by decide)
    (coerce_int_none "/" (by decide)) (by decide) (by norm_num [applyBin]))]
  rfl

/-- Evaluating `"5 0 /"` on the floating-point calculator: `0 / 5 = 0`, successful. -/
theorem calcFiveZeroDivFloat (st : CalcState) :
    floatCalculator.calculate st "5 0 /" = (.ok 0, ⟨0⟩) := by
  apply calculate_ok
  rw [show pySplit "5 0 /" = ["5", "0", "/"] from by decide]
  rw [evalTokens_cons_ok _ _ _ _ _ _ (step_lit _ _ _ 5 _ (by decide)
    (coerce_float_eval "5" ⟨false, 5, 0, 0⟩ 5 (by decide) (by norm_num [FloatParse.val, pow10])))]
  rw [evalTokens_cons_ok _ _ _ _ _ _ (step_lit _ _ _ 0 _ (by decide)
    (coerce_float_eval "0" ⟨false, 0, 0, 0⟩ 0 (by decide) (by norm_num [FloatParse.val, pow10])))]
  rw [evalTokens_cons_ok _ _ _ _ _ _ (step_bin_ok _ _ _ .truediv 0 5 0 _ (by decide)
    (coerce_float_none "/" (by decide)) (by decide) (by norm_num [applyBin]))]
  rfl

/-- Evaluating `"0 5 /"` on the integer calculator divides 5 by 0 and raises
`ZeroDivisionError`. -/
theorem calcZeroFiveDivInt (st : CalcState) :
    integerCalculator.calculate st "0 5 /" = (.error .zeroDivisionError, st) := by
  apply calculate_err
  rw [show pySplit "0 5 /" = ["0", "5", "/"] from by decide]
  rw [evalTokens_cons_ok _ _ _ _ _ _ (step_lit _ _ _ 0 _ (by decide)
    (coerce_int_eval "0" 0 0 (by decide) (by norm_num)))]
  rw [evalTokens_cons_ok _ _ _ _ _ _ (step_lit _ _ _ 5 _ (by decide)
    (coerce_int_eval "5" 5 5 (by decide) (by norm_num)))]
  exact evalTokens_cons_err _ _ _ _ _ _ (step_bin_err _ _ _ .floordiv 5 0 _ _ (by decide)
    (coerce_int_none "/" (by decide)) (by decide) (by norm_num [applyBin]))

/-- Evaluating `"0 5 /"` on the floating-point calculator divides 5 by 0 and raises
`ZeroDivisionError` — no infinite value is produced. -/
theorem calcZeroFiveDivFloat (st : CalcState) :
    floatCalculator.calculate st "0 5 /" = (.error .zeroDivisionError, st) := by
  apply calculate_err
  rw [show pySplit "0 5 /" = ["0", "5", "/"] from by decide]
  rw [evalTokens_cons_ok _ _ _ _ _ _ (step_lit _ _ _ 0 _ (by decide)
    (coerce_float_eval "0" ⟨false, 0, 0, 0⟩ 0 (by decide) (by norm_num [FloatParse.val, pow10])))]
  rw [evalTokens_cons_ok _ _ _ _ _ _ (step_lit _ _ _ 5 _ (by decide)
    (coerce_float_eval "5" ⟨false, 5, 0, 0⟩ 5 (by decide) (by norm_num [FloatParse.val, pow10])))]
  exact evalTokens_cons_err _ _ _ _ _ _ (step_bin_err _ _ _ .truediv 5 0 _ _ (by decide)
    (coerce_float_none "/" (by decide)) (by decide) (by norm_num [applyBin]))

/-- C3 counterexample: the claim says integer-mode `evaluate("5 0 /")`
fails with a division-by-zero error while floating-point-mode division
by zero yields an infinite or not-a-number value and is not an error.
In fact (a) `"5 0 /"` SUCCEEDS with result 0 in integer mode (the
swapped operand order computes `0 // 5`), and (b) when a division by
zero does happen in floating-point mode (`"0 5 /"` computes `5 / 0`),
Python raises `ZeroDivisionError` — an error, not an infinity. -/
theorem c3_counterexample :
    (integerCalculator.calculate ⟨0⟩ "5 0 /").1 = .ok 0 ∧
    (floatCalculator.calculate ⟨0⟩ "0 5 /").1 = .error .zeroDivisionError := by
  rw [calcFiveZeroDivInt ⟨0⟩, calcZeroFiveDivFloat ⟨0⟩]
  exact ⟨rfl, rfl⟩

/-- C3 (amended): because the first-popped value is the left operand,
`evaluate("5 0 /")` computes `0 / 5` and succeeds with 0 in BOTH modes;
an expression that does divide by zero, `evaluate("0 5 /")`, raises
`ZeroDivisionError` in BOTH modes — division by zero is an error in
floating-point mode too (no infinite or not-a-number value), so the
error is not confined to integer mode. -/
theorem c3_amended (st : CalcState) :
    integerCalculator.calculate st "5 0 /" = (.ok 0, ⟨0⟩) ∧
    floatCalculator.calculate st "5 0 /" = (.ok 0, ⟨0⟩) ∧
    integerCalculator.calculate st "0 5 /" = (.error .zeroDivisionError, st) ∧
    floatCalculator.calculate st "0 5 /" = (.error .zeroDivisionError, st) :=
  ⟨calcFiveZeroDivInt st, calcFiveZeroDivFloat st,
    calcZeroFiveDivInt st, calcZeroFiveDivFloat st⟩

/-- C3 witness: the amended statement at a state holding 1. -/
theorem c3_witness :
    integerCalculator.calculate ⟨1⟩ "5 0 /" = (.ok 0, ⟨0⟩) :=
  (c3_amended ⟨1⟩).1

/-- C4: if `calculate` fails with any error, the calculator state
(`self.last`) is exactly what it was before the call; it is overwritten
(with the result) only when the token loop ends with exactly one value
on the stack. -/
theorem c4_errors_leave_state_unchanged (c : Calculator) (st : CalcState)
    (expr : String) :
    (∀ e : PyErr, (c.calculate st expr).1 = .error e →
      (c.calculate st expr).2 = st) ∧
    (∀ v : ℚ, (c.calculate st expr).1 = .ok v →
      (c.calculate st expr).2 = ⟨v⟩ ∧
      c.evalTokens st.last (pySplit expr) [] = .ok [v]) := by
  cases hev : c.evalTokens st.last (pySplit expr) [] with
  | error e2 =>
    rw [calculate_err c st expr e2 hev]
    exact ⟨fun e h => rfl, fun v h => by simp at h⟩
  | ok stack =>
    rcases stack with _ | ⟨v0, _ | ⟨b, l⟩⟩
    · rw [calculate_malformed0 c st expr hev]
      exact ⟨fun e h => rfl, fun v h => by simp at h⟩
    · rw [calculate_ok c st expr v0 hev]
      refine ⟨fun e h => by simp at h, fun v h => ?_⟩
      simp at h
      subst h
      exact ⟨rfl, rfl⟩
    · rw [calculate_malformed2 c st expr v0 b l hev]
      exact ⟨fun e h => rfl, fun v h => by simp at h⟩

/-- C4 witness: after the failing evaluation `"1 +"` (stack underflow),
the state still holds the previous result 7. -/
theorem c4_witness :
    (floatCalculator.calculate ⟨7⟩ "1 +").2 = ⟨7⟩ :=
  (c4_errors_leave_state_unchanged floatCalculator ⟨7⟩ "1 +").1
    (.indexError "pop from empty list") (by rw [calcOnePlus ⟨7⟩])

/-- C5: inside one `calculate` call every occurrence of the token `.`
pushes the `last` value the call began with (the loop never changes it),
and in a session whose last result is 2, `evaluate("1 1 + .")` leaves
the two-value stack `[2, 2]` and fails with the malformed-expression
error, leaving the state at 2. -/
theorem c5_memory_reads_previous_result :
    (∀ (c : Calculator) (last : ℚ) (toks1 toks2 : List String)
      (s0 s : List ℚ), c.evalTokens last toks1 s0 = .ok s →
      c.evalTokens last (toks1 ++ "." :: toks2) s0 =
        c.evalTokens last toks2 (last :: s)) ∧
    floatCalculator.calculate ⟨2⟩ "1 1 + ." =
      (.error (.runtimeError "Malformed expression"), ⟨2⟩) ∧
    floatCalculator.evalTokens 2 (pySplit "1 1 + .") [] = .ok [2, 2] := by
  have hc1 : floatCalculator.coerce "1" = some 1 :=
    coerce_float_eval "1" ⟨false, 1, 0, 0⟩ 1 (by decide) (by norm_num [FloatParse.val, pow10])
  have hev : floatCalculator.evalTokens 2 (pySplit "1 1 + .") [] = .ok [2, 2] := by
    rw [show pySplit "1 1 + ." = ["1", "1", "+", "."] from by decide]
    rw [evalTokens_cons_ok _ _ _ _ _ _ (step_lit _ _ _ 1 _ (by decide) hc1)]
    rw [evalTokens_cons_ok _ _ _ _ _ _ (step_lit _ _ _ 1 _ (by decide) hc1)]
    rw [evalTokens_cons_ok _ _ _ _ _ _ (step_bin_ok _ _ _ .add 1 1 2 _ (by decide)
      (coerce_float_none "+" (by decide)) (by decide) (by norm_num [applyBin]))]
    rw [evalTokens_cons_ok _ _ _ _ _ _ (step_mem _ 2 [2])]
    rfl
  refine ⟨?_, calculate_malformed2 floatCalculator ⟨2⟩ "1 1 + ." 2 2 [] hev, hev⟩
  intro c last toks1 toks2 s0 s h
  rw [evalTokens_append c last toks1 ("." :: toks2) s0, h]
  show c.evalTokens last ("." :: toks2) s = _
  rw [evalTokens_cons_ok c last "." toks2 s (last :: s) (step_mem c last s)]

/-- C5 witness: the prefix `["7"]` evaluates to the stack `[7]`, and
appending `.` pushes the pre-call last value 9, not anything computed. -/
theorem c5_witness :
    floatCalculator.evalTokens 9 (["7"] ++ "." :: []) [] =
      floatCalculator.evalTokens 9 [] (9 :: [7]) :=
  c5_memory_reads_previous_result.1 floatCalculator 9 ["7"] [] [] [7]
    (by
      rw [evalTokens_cons_ok _ _ _ _ _ _ (step_lit _ _ _ 7 _ (by decide)
        (coerce_float_eval "7" ⟨false, 7, 0, 0⟩ 7 (by decide) (by norm_num [FloatParse.val, pow10])))]
      rfl)

/-- Resolution of a callable math attribute: arity from
`get_math_arg_count` on the function's `__name__`. -/
theorem lookup_fn (c : Calculator) (tok p : String)
    (h1 : tok ≠ ".") (h2 : c.coerce tok = none)
    (h3 : lookupAssoc c.ops tok = none)
    (h4 : lookupAssoc c.reg tok = some (.func p)) :
    c.lookup tok = .ok (.mathFn p, getMathArgCount p) := by
  unfold Calculator.lookup
  rw [if_neg h1, h2, h3, h4]

/-- Resolution of a non-callable math attribute: the
`AttributeError` from `get_math_arg_count` reading `__name__` is caught
by the fall-through, and the token is reported as an invalid operand —
with the constant's representation in the message, because the code
rebound `operand` to the attribute. -/
theorem lookup_const (c : Calculator) (tok r : String)
    (h1 : tok ≠ ".") (h2 : c.coerce tok = none)
    (h3 : lookupAssoc c.ops tok = none)
    (h4 : lookupAssoc c.reg tok = some (.const r)) :
    c.lookup tok = .error (.runtimeError ("Invalid operand: " ++ r)) := by
  unfold Calculator.lookup
  rw [if_neg h1, h2, h3, h4]

/-- Resolution when no classification matches. -/
theorem lookup_unknown (c : Calculator) (tok : String)
    (h1 : tok ≠ ".") (h2 : c.coerce tok = none)
    (h3 : lookupAssoc c.ops tok = none)
    (h4 : lookupAssoc c.reg tok = none) :
    c.lookup tok = .error (.runtimeError ("Invalid operand: " ++ tok)) := by
  unfold Calculator.lookup
  rw [if_neg h1, h2, h3, h4]

/-- C7: token classification is attempted in the fixed order memory
reference → numeric literal → binary operator → math attribute, for any
calculator: `.` always resolves to the memory reference, a token the
active coercion parses always becomes a literal push (whatever the
operator table or registry holds), and an operator-table hit is taken
only after coercion fails.  A failed literal parse falls through rather
than erroring: `int("3.5")` fails while `float("3.5")` gives 3.5, and
the integer-mode calculator given `3.5` walks through all remaining
classifications and ends with `RuntimeError("Invalid operand: 3.5")`. -/
theorem c7_resolution_order :
    (∀ c : Calculator, c.lookup "." = .ok (.memRef, 0)) ∧
    (∀ (c : Calculator) (tok : String) (v : ℚ), tok ≠ "." →
      c.coerce tok = some v → c.lookup tok = .ok (.pushVal v, 0)) ∧
    (∀ (c : Calculator) (tok : String) (f : PyBinFn), tok ≠ "." →
      c.coerce tok = none → lookupAssoc c.ops tok = some f →
      c.lookup tok = .ok (.binOp f, 2)) ∧
    pyInt "3.5" = none ∧
    pyFloat "3.5" = some (7 / 2) ∧
    integerCalculator.lookup "3.5" =
      .error (.runtimeError "Invalid operand: 3.5") := by
  refine ⟨lookup_mem, lookup_lit, lookup_op, by decide, ?_, ?_⟩
  · rw [pyFloat_some "3.5" ⟨false, 35, 1, 0⟩ (by decide)]
    norm_num [FloatParse.val, pow10]
  · decide

/-- C7 witness: the literal classification applied to the token `2` on
the floating-point calculator. -/
theorem c7_witness :
    floatCalculator.lookup "2" = .ok (.pushVal 2, 0) :=
  c7_resolution_order.2.1 floatCalculator "2" 2 (by decide)
    (coerce_float_eval "2" ⟨false, 2, 0, 0⟩ 2 (by decide)
      (by norm_num [FloatParse.val, pow10]))

/-- C8: a successfully processed token of arity `n` takes the stack from
depth `d` (with `n ≤ d`, so the depth never goes negative) to depth
`d - n + 1`; when fewer than `n` values are available the step is the
stack-underflow error (`IndexError`), not a crash of the evaluator
model.  `Calculator.evalTokens` applies `Calculator.step` to every
token, so this holds at each prefix of every expression. -/
theorem c8_stack_depth_invariant :
    (∀ (c : Calculator) (last : ℚ) (tok : String) (stack s2 : List ℚ),
      c.step last tok stack = .ok s2 →
      ∃ a n, c.lookup tok = .ok (a, n) ∧ n ≤ stack.length ∧
        s2.length = stack.length - n + 1) ∧
    (∀ (c : Calculator) (last : ℚ) (tok : String) (stack : List ℚ)
      (a : PyAction) (n : ℕ), c.lookup tok = .ok (a, n) →
      stack.length < n →
      c.step last tok stack = .error (.indexError "pop from empty list")) :=
  ⟨step_ok_shape, fun c last tok stack a n hl hn =>
    step_err_of_underflow c last tok a n stack hl hn⟩

/-- C8 witness: the arity-2 token `+` takes a depth-2 stack to depth
2 - 2 + 1 = 1. -/
theorem c8_witness :
    ∃ a n, floatCalculator.lookup "+" = .ok (a, n) ∧
      n ≤ ([1, 2] : List ℚ).length ∧
      ([3] : List ℚ).length = ([1, 2] : List ℚ).length - n + 1 :=
  c8_stack_depth_invariant.1 floatCalculator 0 "+" [1, 2] [3]
    (step_bin_ok floatCalculator 0 "+" .add 1 2 3 [] (by decide)
      (coerce_float_none "+" (by decide)) (by decide) (by norm_num [applyBin]))

/-- C9: `get_math_arg_count` assigns every function arity 1 or 2, and
arity 1 exactly when the function's name is one of `cos`, `sin`, `tan`,
`exp`, `sqrt`; every other registered function gets arity 2, and
`lookup` attaches exactly this arity to a resolved math function. -/
theorem c9_math_arity_classification :
    (∀ p : String, getMathArgCount p = 1 ∨ getMathArgCount p = 2) ∧
    (∀ p : String, getMathArgCount p = 1 ↔
      (p = "cos" ∨ p = "sin" ∨ p = "tan" ∨ p = "exp" ∨ p = "sqrt")) ∧
    (∀ (c : Calculator) (tok p : String), tok ≠ "." → c.coerce tok = none →
      lookupAssoc c.ops tok = none →
      lookupAssoc c.reg tok = some (.func p) →
      c.lookup tok = .ok (.mathFn p, getMathArgCount p)) := by
  refine ⟨?_, ?_, lookup_fn⟩
  · intro p
    unfold getMathArgCount
    split
    · exact Or.inl rfl
    · exact Or.inr rfl
  · intro p
    unfold getMathArgCount
    split
    · rename_i h
      exact iff_of_true rfl h
    · rename_i h
      exact iff_of_false (by decide) h

/-- C9 witness: `sin` resolves from the registry with arity
`getMathArgCount "sin"`, which is 1. -/
theorem c9_witness :
    integerCalculator.lookup "sin" =
      .ok (.mathFn "sin", getMathArgCount "sin") ∧
    getMathArgCount "sin" = 1 :=
  ⟨c9_math_arity_classification.2.2 integerCalculator "sin" "sin" (by decide)
    (coerce_int_none "sin" (by decide)) (by decide) (by decide), by decide⟩

/-- C10: a token that names a non-callable attribute of the math
registry (a constant such as `pi`) fails resolution with the
unknown-token `RuntimeError` instead of pushing the constant's value:
`get_math_arg_count` raises `AttributeError` reading the attribute's
`__name__`, and that failure takes the same `except AttributeError`
fall-through to the same `raise RuntimeError("Invalid operand: ...")`
as a completely missing attribute (the message shows the constant's
representation, since the code rebound `operand` to the attribute). -/
theorem c10_constants_are_unknown_tokens :
    (∀ (c : Calculator) (tok r : String), tok ≠ "." → c.coerce tok = none →
      lookupAssoc c.ops tok = none →
      lookupAssoc c.reg tok = some (.const r) →
      c.lookup tok = .error (.runtimeError ("Invalid operand: " ++ r))) ∧
    (∀ (c : Calculator) (tok : String), tok ≠ "." → c.coerce tok = none →
      lookupAssoc c.ops tok = none → lookupAssoc c.reg tok = none →
      c.lookup tok = .error (.runtimeError ("Invalid operand: " ++ tok))) :=
  ⟨lookup_const, lookup_unknown⟩

/-- C10 witness: the token `pi` names the constant `math.pi`; resolution
fails with the invalid-operand error carrying the constant's
representation. -/
theorem c10_witness :
    integerCalculator.lookup "pi" =
      .error (.runtimeError ("Invalid operand: " ++ "3.141592653589793")) :=
  c10_constants_are_unknown_tokens.1 integerCalculator "pi" "3.141592653589793"
    (by decide) (coerce_int_none "pi" (by decide)) (by decide) (by decide)
